import Mathlib

/-!
Verification of the `seed_db` repository: the `Game` declarative model
(`src/seed_db/app/db.py`) and the stub seeding script
(`src/seed_db/debug.py`), embedded shallowly in Lean 4.
-/

/-- Timestamps (SQL `DateTime` values produced by `func.now()`) are modelled
as natural-number clock readings. -/
abbrev Timestamp := Nat

/-- One row of the `games` table, mirroring the `Game` model of
`src/seed_db/app/db.py`: `id` (Integer primary key), `title`, `genre`,
`platform` (String), `price` (Integer), `created_at`, `updated_at`
(DateTime).  Every column other than the primary key is nullable, as in the
source, and `id` is `Option` because an ORM object has no id before the
storage layer assigns one. -/
structure GameRow where
  id : Option Nat
  title : Option String
  genre : Option String
  platform : Option String
  price : Option Int
  created_at : Option Timestamp
  updated_at : Option Timestamp
deriving DecidableEq

/-- Static description of a column declaration, keeping exactly the options
that appear in `src/seed_db/app/db.py`. -/
structure ColumnSpec where
  primaryKey : Bool
  serverDefaultNow : Bool
  onupdateNow : Bool
deriving DecidableEq

/-- `id = Column(Integer(), primary_key=True)` -/
def Game.id_col : ColumnSpec := ⟨true, false, false⟩

/-- `title = Column(String())` -/
def Game.title_col : ColumnSpec := ⟨false, false, false⟩

/-- `genre = Column(String())` -/
def Game.genre_col : ColumnSpec := ⟨false, false, false⟩

/-- `platform = Column(String())` -/
def Game.platform_col : ColumnSpec := ⟨false, false, false⟩

/-- `price = Column(Integer())` -/
def Game.price_col : ColumnSpec := ⟨false, false, false⟩

/-- `created_at = Column(DateTime(), server_default=func.now())` -/
def Game.created_at_col : ColumnSpec := ⟨false, true, false⟩

/-- `updated_at = Column(DateTime(), onupdate=func.now())` -/
def Game.updated_at_col : ColumnSpec := ⟨false, false, true⟩

/-- The application-supplied fields of a `Game` about to be inserted: the
storage layer, not the caller, fills in `id`, `created_at` and
`updated_at`. -/
structure GameInput where
  title : Option String
  genre : Option String
  platform : Option String
  price : Option Int
deriving DecidableEq

/-- The persisted `games` table: its rows plus the integer-primary-key
autoincrement counter. -/
structure GamesTable where
  rows : List GameRow
  nextId : Nat
deriving DecidableEq

/-- A freshly created `games` table. -/
def GamesTable.empty : GamesTable := ⟨[], 1⟩

/-- Modelled from the spec: the storage layer's INSERT for the `games`
table.  Following the column declarations, `id` is "assigned by the storage
layer on insert" (the autoincrement counter), `created_at` is "set once at
insertion time by the storage layer" (`server_default=func.now()`), and
`updated_at`, which has no insert-time default and only
`onupdate=func.now()`, is left null. -/
def insertGame (db : GamesTable) (now : Timestamp) (g : GameInput) : GamesTable :=
  { rows := db.rows ++
      [{ id := some db.nextId
         title := g.title
         genre := g.genre
         platform := g.platform
         price := g.price
         created_at := some now
         updated_at := none }]
    nextId := db.nextId + 1 }

/-- A modification of a record's application-supplied fields: `some v`
means the field is set to `v`, `none` means it is left alone.  The primary
key and the storage-managed timestamps are not settable here. -/
structure GameUpdate where
  title : Option (Option String)
  genre : Option (Option String)
  platform : Option (Option String)
  price : Option (Option Int)
deriving DecidableEq

/-- Modelled from the spec: the effect of an UPDATE on one row.  `id` and
`created_at` are untouched (neither column has an `onupdate`), while
`updated_at` is "refreshed by the storage layer whenever the record is
modified" (`onupdate=func.now()`). -/
def applyUpdate (u : GameUpdate) (now : Timestamp) (r : GameRow) : GameRow :=
  { r with
    title := u.title.getD r.title
    genre := u.genre.getD r.genre
    platform := u.platform.getD r.platform
    price := u.price.getD r.price
    updated_at := some now }

/-- Modelled from the spec: the storage layer's UPDATE for the `games`
table, applied to the record whose primary key is `i`. -/
def updateGame (db : GamesTable) (i : Nat) (now : Timestamp) (u : GameUpdate) :
    GamesTable :=
  { db with
    rows := db.rows.map fun r => if r.id = some i then applyUpdate u now r else r }

/-- Reading a record back from storage: the first row whose primary key is
`i`. -/
def GamesTable.get (db : GamesTable) (i : Nat) : Option GameRow :=
  db.rows.find? fun r => r.id == some i

/-- Well-formedness of a persisted table: primary keys are pairwise
distinct, and every row has a non-null `id` below the autoincrement
counter. -/
def GamesTable.Wf (db : GamesTable) : Prop :=
  (db.rows.map GameRow.id).Nodup ∧
    ∀ r ∈ db.rows, ∃ n, r.id = some n ∧ n < db.nextId

instance (db : GamesTable) : Decidable db.Wf := by
  unfold GamesTable.Wf
  infer_instance

lemma updateGame_map_id (db : GamesTable) (i : Nat) (now : Timestamp)
    (u : GameUpdate) :
    ((updateGame db i now u).rows.map GameRow.id) = db.rows.map GameRow.id := by
  simp only [updateGame, List.map_map]
  apply List.map_congr_left
  intro r _
  by_cases h : r.id = some i <;> simp [applyUpdate, h]

lemma updateGame_map_created_at (db : GamesTable) (i : Nat) (now : Timestamp)
    (u : GameUpdate) :
    ((updateGame db i now u).rows.map GameRow.created_at) =
      db.rows.map GameRow.created_at := by
  simp only [updateGame, List.map_map]
  apply List.map_congr_left
  intro r _
  by_cases h : r.id = some i <;> simp [applyUpdate, h]

lemma insertGame_getLast (db : GamesTable) (now : Timestamp) (g : GameInput) :
    (insertGame db now g).rows.getLast? =
      some { id := some db.nextId, title := g.title, genre := g.genre,
             platform := g.platform, price := g.price,
             created_at := some now, updated_at := none } := by
  simp [insertGame]

lemma mem_updateGame (db : GamesTable) (i : Nat) (now : Timestamp)
    (u : GameUpdate) (r : GameRow) (hr : r ∈ (updateGame db i now u).rows) :
    ∃ r₀ ∈ db.rows, r = if r₀.id = some i then applyUpdate u now r₀ else r₀ := by
  simp only [updateGame, List.mem_map] at hr
  obtain ⟨r₀, hr₀, heq⟩ := hr
  exact ⟨r₀, hr₀, heq.symm⟩

/-- Claim C1: for every `Game` record, `updated_at` is null when the record
is first inserted (the inserting code supplies no value for it), and after
any modification of the record's fields the modified record's `updated_at`
is non-null, refreshed by the storage layer to the time of that
modification. -/
theorem updated_at_null_on_insert_refreshed_on_update
    (db : GamesTable) (now now' : Timestamp) (g : GameInput)
    (i : Nat) (u : GameUpdate) :
    ((insertGame db now g).rows.getLast?.map GameRow.updated_at) = some none ∧
    ∀ r ∈ (updateGame db i now' u).rows, r.id = some i →
      r.updated_at = some now' := by
  constructor
  · rw [insertGame_getLast]
    rfl
  · intro r hr hid
    obtain ⟨r₀, _, heq⟩ := mem_updateGame db i now' u r hr
    by_cases h : r₀.id = some i
    · simp only [h, if_pos rfl] at heq
      subst heq
      rfl
    · simp only [if_neg h] at heq
      subst heq
      exact absurd hid h

/-- Closed witness for C1: after inserting one game into the empty table at
time 5 and updating record 1's price at time 7, the resulting concrete row
carries `updated_at = 7`. -/
theorem updated_at_null_on_insert_refreshed_on_update_witness :
    (⟨some 1, some "Pac-Man", some "arcade", some "Atari", some 25,
        some 5, some 7⟩ : GameRow).updated_at = some 7 :=
  (updated_at_null_on_insert_refreshed_on_update
      (insertGame GamesTable.empty 5
        ⟨some "Pac-Man", some "arcade", some "Atari", some 30⟩)
      5 7 ⟨some "Pac-Man", some "arcade", some "Atari", some 30⟩
      1 ⟨none, none, none, some (some 25)⟩).2
    ⟨some 1, some "Pac-Man", some "arcade", some "Atari", some 25,
        some 5, some 7⟩
    (by decide) (by decide)

/-- Claim C2: `created_at` is assigned by the storage layer at insertion
time (to the insertion timestamp, hence non-null immediately after
insertion), and updates to records never change any row's `created_at`. -/
theorem created_at_set_once_at_insert
    (db : GamesTable) (now now' : Timestamp) (g : GameInput)
    (i : Nat) (u : GameUpdate) :
    ((insertGame db now g).rows.getLast?.map GameRow.created_at) =
        some (some now) ∧
    ((updateGame db i now' u).rows.map GameRow.created_at) =
        db.rows.map GameRow.created_at := by
  refine ⟨?_, updateGame_map_created_at db i now' u⟩
  rw [insertGame_getLast]
  rfl

/-- Claim C5: `id` is immutable: the UPDATE operation (the only
record-modifying operation in the repository's scope) leaves every row's
`id` exactly as it was assigned at insertion. -/
theorem id_immutable_under_update
    (db : GamesTable) (i : Nat) (now : Timestamp) (u : GameUpdate) :
    ((updateGame db i now u).rows.map GameRow.id) = db.rows.map GameRow.id :=
  updateGame_map_id db i now u

lemma insertGame_preserves_Wf (db : GamesTable) (now : Timestamp)
    (g : GameInput) (h : db.Wf) : (insertGame db now g).Wf := by
  obtain ⟨hnd, hbd⟩ := h
  constructor
  · simp only [insertGame, List.map_append, List.map_cons, List.map_nil]
    rw [List.nodup_append]
    refine ⟨hnd, List.nodup_singleton _, ?_⟩
    intro x hx hx'
    simp only [List.mem_singleton] at hx'
    subst hx'
    simp only [List.mem_map] at hx
    obtain ⟨r, hr, hid⟩ := hx
    obtain ⟨n, hn, hlt⟩ := hbd r hr
    rw [hn] at hid
    exact absurd (Option.some_injective _ hid) (Nat.ne_of_lt hlt)
  · intro r hr
    simp only [insertGame, List.mem_append, List.mem_singleton] at hr
    rcases hr with hr | hr
    · obtain ⟨n, hn, hlt⟩ := hbd r hr
      exact ⟨n, hn, Nat.lt_succ_of_lt hlt⟩
    · subst hr
      exact ⟨db.nextId, rfl, Nat.lt_succ_self _⟩

lemma get_insertGame (db : GamesTable) (now : Timestamp) (g : GameInput)
    (h : ∀ r ∈ db.rows, ∃ n, r.id = some n ∧ n < db.nextId) :
    (insertGame db now g).get db.nextId =
      some { id := some db.nextId, title := g.title, genre := g.genre,
             platform := g.platform, price := g.price,
             created_at := some now, updated_at := none } := by
  unfold GamesTable.get insertGame
  rw [List.find?_append]
  have hnone : (db.rows.find? fun r => r.id == some db.nextId) = none := by
    rw [List.find?_eq_none]
    intro r hr
    obtain ⟨n, hn, hlt⟩ := h r hr
    simp [hn, Nat.ne_of_lt hlt]
  rw [hnone]
  simp

/-- Claim C3: the inserted record's `id` is assigned by the storage layer
(the autoincrement counter), is non-null after insertion, and primary keys
stay pairwise distinct across the whole table. -/
theorem id_nonnull_unique_after_insert (db : GamesTable) (now : Timestamp)
    (g : GameInput) (h : db.Wf) :
    ((insertGame db now g).rows.getLast?.map GameRow.id) =
        some (some db.nextId) ∧
    ((insertGame db now g).rows.map GameRow.id).Nodup ∧
    (insertGame db now g).Wf := by
  refine ⟨?_, (insertGame_preserves_Wf db now g h).1,
    insertGame_preserves_Wf db now g h⟩
  rw [insertGame_getLast]
  rfl

/-- Closed witness for C3: inserting into the empty table at time 3 yields
a well-formed table whose single row has `id = 1`. -/
theorem id_nonnull_unique_after_insert_witness :
    ((insertGame GamesTable.empty 3
        ⟨some "Tetris", some "puzzle", some "Game Boy", some 10⟩).rows.getLast?.map
          GameRow.id) = some (some 1) ∧
    (insertGame GamesTable.empty 3
        ⟨some "Tetris", some "puzzle", some "Game Boy", some 10⟩).Wf :=
  ⟨(id_nonnull_unique_after_insert GamesTable.empty 3
      ⟨some "Tetris", some "puzzle", some "Game Boy", some 10⟩ (by decide)).1,
   (id_nonnull_unique_after_insert GamesTable.empty 3
      ⟨some "Tetris", some "puzzle", some "Game Boy", some 10⟩ (by decide)).2.2⟩

/-- Claim C4: inserting a record whose `price` is the integer `v` and
reading the record back from storage by its assigned primary key yields
`price = v` again: the round trip through storage leaves `price`
unchanged. -/
theorem price_round_trip (db : GamesTable) (now : Timestamp) (g : GameInput)
    (v : Int) (h : db.Wf) (hp : g.price = some v) :
    (((insertGame db now g).get db.nextId).map GameRow.price) =
      some (some v) := by
  rw [get_insertGame db now g h.2]
  simp [hp]

/-- Closed witness for C4: a record inserted with price 42 into the empty
table reads back with price 42. -/
theorem price_round_trip_witness :
    (((insertGame GamesTable.empty 9 ⟨none, none, none, some 42⟩).get 1).map
        GameRow.price) = some (some 42) :=
  price_round_trip GamesTable.empty 9 ⟨none, none, none, some 42⟩ 42
    (by decide) rfl

/-- Extracts the dialect name of an SQLAlchemy database URL: the text before
the first `://`.  `none` means the string is not a well-formed URL
(`create_engine` raises an `ArgumentError` on such a string). -/
def urlDialectAux : List Char → List Char → Option String
  | acc, ':' :: '/' :: '/' :: _ => some ⟨acc.reverse⟩
  | acc, c :: cs => urlDialectAux (c :: acc) cs
  | _, [] => none

/-- Dialect of a database URL, or `none` when malformed. -/
def urlDialect (url : String) : Option String :=
  urlDialectAux [] url.data

lemma urlDialect_sqlite : urlDialect "sqlite:///seed_db.db" = some "sqlite" := by
  decide

/-- Statements of the minimal scripting language needed to embed
`src/seed_db/debug.py`.  `tryExcept` is in the language (Python has
`try/except`) so that the absence of error handling in the script is a
statement about the script, not an artifact of the model. -/
inductive Stmt : Type where
  | createEngine (url : String)
  | sessionmakerBind
  | openSession
  | setTrace
  | insertRecord (g : GameInput)
  | tryExcept (body handler : Stmt)
deriving DecidableEq

/-- Errors the modelled statements can raise. -/
inductive PyError : Type where
  | argumentError (url : String)
deriving DecidableEq

/-- How a run of a statement list ends when no error escapes: interactively
halted at a debugger breakpoint, or finished with a normal exit. -/
inductive Outcome : Type where
  | halted
  | finished
deriving DecidableEq

/-- Modelled from the spec: effect of one statement on the games table.
`create_engine` raises `ArgumentError` on a malformed connection string;
`ipdb.set_trace()` halts the process at an interactive breakpoint;
`try/except` runs its handler when the body raises. -/
def runStmt : Stmt → GamesTable → Timestamp → Except PyError (GamesTable × Outcome)
  | Stmt.createEngine url, db, _ =>
      if (urlDialect url).isSome then Except.ok (db, Outcome.finished)
      else Except.error (PyError.argumentError url)
  | Stmt.sessionmakerBind, db, _ => Except.ok (db, Outcome.finished)
  | Stmt.openSession, db, _ => Except.ok (db, Outcome.finished)
  | Stmt.setTrace, db, _ => Except.ok (db, Outcome.halted)
  | Stmt.insertRecord g, db, now =>
      Except.ok (insertGame db now g, Outcome.finished)
  | Stmt.tryExcept b hd, db, now =>
      match runStmt b db now with
      | Except.error _ => runStmt hd db now
      | ok => ok

/-- Modelled from the spec: run statements in order; stop at a halt, and
let an uncaught error propagate to process termination. -/
def runStmts : List Stmt → GamesTable → Timestamp → Except PyError (GamesTable × Outcome)
  | [], db, _ => Except.ok (db, Outcome.finished)
  | s :: rest, db, now =>
      match runStmt s db now with
      | Except.ok (db1, Outcome.finished) => runStmts rest db1 now
      | Except.ok (db1, Outcome.halted) => Except.ok (db1, Outcome.halted)
      | Except.error e => Except.error e

/-- The `if __name__ == '__main__':` block of `src/seed_db/debug.py`, with
the connection URL abstracted: `create_engine(url)`,
`sessionmaker(bind=engine)`, `Session()`, then `ipdb.set_trace()`. -/
def seedScriptSteps (url : String) : List Stmt :=
  [Stmt.createEngine url, Stmt.sessionmakerBind, Stmt.openSession,
    Stmt.setTrace]

/-- The hard-coded connection string of `src/seed_db/debug.py`, line 14. -/
def debugConnectionUrl : String := "sqlite:///seed_db.db"

/-- The seeding script exactly as written in `src/seed_db/debug.py`. -/
def debugScript : List Stmt := seedScriptSteps debugConnectionUrl

/-- Tests whether a statement is an insert. -/
def stmtIsInsert : Stmt → Bool
  | Stmt.insertRecord _ => true
  | _ => false

/-- Tests whether a statement is a `try/except` handler. -/
def stmtIsTry : Stmt → Bool
  | Stmt.tryExcept _ _ => true
  | _ => false

/-- A statement list with no `try/except` anywhere (statements only nest
through `tryExcept`, so checking the top level suffices). -/
def noHandlers (stmts : List Stmt) : Bool :=
  stmts.all fun s => !(stmtIsTry s)

/-- Claim C6: run as a main program, the seeding script performs exactly
these steps in order: create the engine (open the database connection),
build the session factory, open a session, then halt at the interactive
debugger breakpoint — inserting no record on the way and never reaching a
normal exit. -/
theorem script_halts_at_breakpoint (db : GamesTable) (now : Timestamp) :
    debugScript = [Stmt.createEngine "sqlite:///seed_db.db",
        Stmt.sessionmakerBind, Stmt.openSession, Stmt.setTrace] ∧
    runStmts debugScript db now = Except.ok (db, Outcome.halted) ∧
    debugScript.all (fun s => !(stmtIsInsert s)) = true := by
  refine ⟨rfl, ?_, rfl⟩
  simp [debugScript, seedScriptSteps, debugConnectionUrl, runStmts, runStmt,
    urlDialect_sqlite]

/-- Claim C7: a run of the seeding script leaves the persisted games table
unchanged — it contains no insert statement, and the table it halts with is
exactly the table it started from, row for row. -/
theorem script_leaves_table_unchanged (db : GamesTable) (now : Timestamp) :
    ((runStmts debugScript db now).map fun p => p.1.rows) =
        Except.ok db.rows ∧
    ((runStmts debugScript db now).map Prod.fst) = Except.ok db ∧
    debugScript.all (fun s => !(stmtIsInsert s)) = true := by
  refine ⟨?_, ?_, rfl⟩ <;>
    simp [debugScript, seedScriptSteps, debugConnectionUrl, runStmts, runStmt,
      urlDialect_sqlite, Except.map]

/-- Claim C8: the seeding script has no error handling: it contains no
`try/except`, an insert performs no validation (it succeeds on every
input), and an error raised during execution — here a malformed connection
string at `create_engine` — propagates uncaught to process termination. -/
theorem script_has_no_error_handling (url : String) (db : GamesTable)
    (now : Timestamp) (g : GameInput) (h : urlDialect url = none) :
    noHandlers debugScript = true ∧
    runStmt (Stmt.insertRecord g) db now =
        Except.ok (insertGame db now g, Outcome.finished) ∧
    runStmts (seedScriptSteps url) db now =
        Except.error (PyError.argumentError url) := by
  refine ⟨rfl, rfl, ?_⟩
  simp [seedScriptSteps, runStmts, runStmt, h]

/-- Closed witness for C8: the string `"seed_db.db"` (the URL with its
scheme dropped) is malformed, and running the script on it yields the
uncaught `ArgumentError`. -/
theorem script_has_no_error_handling_witness :
    runStmts (seedScriptSteps "seed_db.db") GamesTable.empty 0 =
      Except.error (PyError.argumentError "seed_db.db") :=
  (script_has_no_error_handling "seed_db.db" GamesTable.empty 0
    ⟨none, none, none, none⟩ (by decide)).2.2

/-- The connection URL the script uses, as a function of the process's
command-line arguments and environment.  In `src/seed_db/debug.py` the URL
is the string literal `'sqlite:///seed_db.db'`, so the function ignores
both inputs. -/
def scriptConnectionUrl (_argv : List String)
    (_env : List (String × String)) : String :=
  "sqlite:///seed_db.db"

/-- Counterexample to claim C9: the database engine is not unspecified in
the source — the script's hard-coded connection URL names the `sqlite`
dialect, and that `create_engine` call is a step of the script. -/
theorem engine_is_specified_in_source :
    urlDialect debugConnectionUrl = some "sqlite" ∧
    Stmt.createEngine debugConnectionUrl ∈ debugScript := by
  exact ⟨urlDialect_sqlite, by decide⟩

/-- Claim C9 (amended): the database engine the script connects to is
specified in the source as SQLite, by the hard-coded connection string
`sqlite:///seed_db.db`; no command-line arguments and no environment
variables influence which database the script connects to (and no wire
protocol is exposed: the URL is a fixed literal). -/
theorem engine_sqlite_and_input_independent (argv argv' : List String)
    (env env' : List (String × String)) :
    urlDialect (scriptConnectionUrl argv env) = some "sqlite" ∧
    scriptConnectionUrl argv env = scriptConnectionUrl argv' env' ∧
    scriptConnectionUrl argv env = debugConnectionUrl := by
  exact ⟨urlDialect_sqlite, rfl, rfl⟩

/-- How a Python f-string renders an optional integer field: `None` for
null, decimal digits otherwise. -/
def pyOptNat : Option Nat → String
  | none => "None"
  | some n => toString n

/-- How a Python f-string renders an optional string field: `None` for
null, the bare text (no quotes added) otherwise. -/
def pyOptStr : Option String → String
  | none => "None"
  | some s => s

/-- `Game.__repr__` from `src/seed_db/app/db.py`, mirroring the three
concatenated f-strings of the source, including the misplaced closing
double quote after the parenthesis in the `platform` piece. -/
def gameRepr (g : GameRow) : String :=
  ("Game(id=" ++ pyOptNat g.id ++ ", ") ++
    ("title=\"" ++ pyOptStr g.title ++ "\", ") ++
    ("platform=\"" ++ pyOptStr g.platform ++ ")\"")

/-- Claim C10: `repr` of a `Game` is
`Game(id=<id>, title="<title>", platform="<platform>)"` — only `id`,
`title` and `platform` appear (two records differing only in `genre`,
`price`, `created_at` or `updated_at` render identically), and the closing
double quote comes after the closing parenthesis instead of wrapping the
platform value. -/
theorem game_repr_format (g g' : GameRow) (hid : g.id = g'.id)
    (ht : g.title = g'.title) (hp : g.platform = g'.platform) :
    gameRepr g =
      "Game(id=" ++ pyOptNat g.id ++ ", title=\"" ++ pyOptStr g.title ++
        "\", platform=\"" ++ pyOptStr g.platform ++ ")\"" ∧
    gameRepr g = gameRepr g' := by
  constructor
  · apply String.ext
    simp only [gameRepr, String.data_append, List.append_assoc,
      List.cons_append, List.nil_append]
  · simp [gameRepr, hid, ht, hp]

/-- Closed witness for C10: the repr of a concrete saved game, with the
quote rendered after the parenthesis, and its independence from `genre`
and `price`. -/
theorem game_repr_format_witness :
    gameRepr ⟨some 1, some "Myst", none, some "PC", none, some 5, none⟩ =
        "Game(id=1, title=\"Myst\", platform=\"PC)\"" ∧
    gameRepr ⟨some 1, some "Myst", none, some "PC", none, some 5, none⟩ =
      gameRepr ⟨some 1, some "Myst", some "adventure", some "PC", some 20,
        some 5, none⟩ :=
  ⟨(game_repr_format
      ⟨some 1, some "Myst", none, some "PC", none, some 5, none⟩
      ⟨some 1, some "Myst", some "adventure", some "PC", some 20, some 5,
        none⟩ rfl rfl rfl).1.trans (by decide),
   (game_repr_format
      ⟨some 1, some "Myst", none, some "PC", none, some 5, none⟩
      ⟨some 1, some "Myst", some "adventure", some "PC", some 20, some 5,
        none⟩ rfl rfl rfl).2⟩
